import Mathlib

/-!
Verification of the InTube notification pipeline against its specification.

The definitions below are a shallow embedding of the JavaScript code in
`src/notification_system.md`: the preference resolver
(`shouldDeliverToChannel`), the grouping/dedup engine
(`groupSimilarNotifications`, `generateGroupedMessage`), the read-status
mutations (`markAsRead`), the event bus (`emitEvent` over Node's
`EventEmitter`), the `NEW_COMMENT` event handler, and the native-WebSocket
connection registry (`clients` map, `sendNotificationToUser`).
Collections are modelled as lists, Mongo documents as structures,
machine timestamps as natural numbers of milliseconds, and JavaScript
exceptions as `Except` errors.
-/

namespace InTube

/-- Delivery channels of the preference schema: `inApp`, `email`, `push`, `sms`. -/
inductive Channel
  | inApp
  | email
  | push
  | sms
deriving DecidableEq, Repr

/-- Notification types of the notification schema enumeration. -/
inductive NotifType
  | comment
  | like
  | subscription
  | videoUpload
  | mention
  | system
deriving DecidableEq, Repr

/-- Resource types of the notification schema enumeration. -/
inductive ResType
  | video
  | comment
  | user
  | system
deriving DecidableEq, Repr

/-- Per-notification-type settings of `notificationPreferencesSchema.types`:
an `enabled` flag and per-channel overrides.  An override may be absent
(the JS object need not carry every channel key), hence `Option Bool`. -/
structure TypePrefs where
  enabled : Bool
  channels : Channel → Option Bool

/-- A user preference record (`notificationPreferencesSchema`): master
per-channel toggles and per-type settings.  A type entry may be absent
from the `types` object, hence `Option TypePrefs`. -/
structure Preferences where
  channels : Channel → Bool
  types : NotifType → Option TypePrefs

/-- Embedding of `shouldDeliverToChannel(preferences, notificationType, channel)`:
three early returns — `!preferences.types[t]?.enabled`, then
`!preferences.channels[c]`, then `preferences.types[t]?.channels[c] ?? false`. -/
def shouldDeliverToChannel (p : Preferences) (t : NotifType) (c : Channel) : Bool :=
  if !((p.types t).elim false TypePrefs.enabled) then false
  else if !(p.channels c) then false
  else ((p.types t).bind (fun tp => tp.channels c)).getD false

/-- Modelled from the spec's words, for comparison with the source function:
"Effective permission for (type, channel) = type.enabled AND
channel.globalEnabled AND type.channelOverride[channel]", with an absent
type entry or absent override counting as false. -/
def effectivePermission (p : Preferences) (t : NotifType) (c : Channel) : Bool :=
  (match p.types t with
   | none => false
   | some tp => tp.enabled) &&
  p.channels c &&
  (match p.types t with
   | none => false
   | some tp => (tp.channels c).getD false)

/-- JavaScript runtime errors relevant to the embedding. -/
inductive JsError
  | typeError
deriving DecidableEq, Repr

/-- `shouldDeliverToChannel` as invoked on a possibly-absent preferences value:
in JavaScript, evaluating `preferences.types` when `preferences` is
`undefined`/`null` throws a `TypeError` before any guard runs. -/
def shouldDeliverToChannelChecked (prefs : Option Preferences) (t : NotifType)
    (c : Channel) : Except JsError Bool :=
  match prefs with
  | none => Except.error JsError.typeError
  | some p => Except.ok (shouldDeliverToChannel p t c)

/-- C3: the resolver `shouldDeliverToChannel` computes exactly the
conjunction `type.enabled AND channel.globalEnabled AND
type.channelOverride[channel]`, returning false when the type entry or
the per-type channel override is absent. -/
theorem shouldDeliverToChannel_eq_effectivePermission :
    ∀ (p : Preferences) (t : NotifType) (c : Channel),
      shouldDeliverToChannel p t c = effectivePermission p t c := by
  intro p t c
  unfold shouldDeliverToChannel effectivePermission
  cases h : p.types t with
  | none => simp
  | some tp =>
    cases he : tp.enabled <;> cases hc : p.channels c <;>
      cases ho : tp.channels c <;> simp [he, hc, ho]

/-- C4 counterexample: with the preference record absent, the resolver does
not return false — the call throws a `TypeError` (as the claim's "returns
false rather than throwing" asserts it would not). -/
theorem prefs_absent_throws_counterexample :
    shouldDeliverToChannelChecked none NotifType.comment Channel.email
        = Except.error JsError.typeError ∧
      shouldDeliverToChannelChecked none NotifType.comment Channel.email
        ≠ Except.ok false := by
  refine ⟨rfl, ?_⟩
  intro h
  simp [shouldDeliverToChannelChecked] at h

/-- C4 (amended): when the preference record cannot be read (absent value),
`shouldDeliverToChannel` throws a `TypeError` rather than returning false;
it never returns a permitting (or any) boolean for an absent record, so no
delivery is permitted, but the failure mode is a thrown error, not a
`false` result. -/
theorem prefs_absent_throws :
    ∀ (t : NotifType) (c : Channel),
      shouldDeliverToChannelChecked none t c = Except.error JsError.typeError ∧
        ∀ b : Bool, shouldDeliverToChannelChecked none t c ≠ Except.ok b := by
  intro t c
  refine ⟨rfl, ?_⟩
  intro b h
  simp [shouldDeliverToChannelChecked] at h

/-- One channel's entry of `deliveryStatus`: `{delivered: bool, timestamp}`,
with `delivered` defaulting to false and `timestamp` initially absent. -/
structure DeliveryFlag where
  delivered : Bool
  timestamp : Option Nat
deriving DecidableEq, Repr

/-- The per-channel `deliveryStatus` object of the notification schema. -/
structure DeliveryStatus where
  inApp : DeliveryFlag
  email : DeliveryFlag
  push : DeliveryFlag
deriving DecidableEq, Repr

/-- Schema defaults: every channel `delivered: false`, no timestamp. -/
def freshDeliveryStatus : DeliveryStatus :=
  { inApp := ⟨false, none⟩, email := ⟨false, none⟩, push := ⟨false, none⟩ }

/-- A stored notification document (`notificationSchema`).  User and resource
identities are modelled as naturals, `data` is reduced to its `count` field
(the only one the pipeline reads or writes), and the Mongoose `timestamps`
are the `createdAt`/`updatedAt` milliseconds. -/
structure Notification where
  id : Nat
  recipient : Nat
  sender : Option Nat
  type : NotifType
  resourceType : ResType
  resourceId : Nat
  message : String
  isRead : Bool
  deliveryStatus : DeliveryStatus
  dataCount : Option Nat
  createdAt : Nat
  updatedAt : Nat
deriving DecidableEq, Repr

/-- The candidate notification handed to the grouping engine:
`{recipient, sender, type, resourceType, resourceId, message, data}`. -/
structure Candidate where
  recipient : Nat
  sender : Option Nat
  type : NotifType
  resourceType : ResType
  resourceId : Nat
  message : String
  dataCount : Option Nat
deriving DecidableEq, Repr

/-- The notification collection together with the id generator state. -/
structure Store where
  nextId : Nat
  rows : List Notification
deriving DecidableEq, Repr

/-- `3600000` — the hard-coded one-hour window of `groupSimilarNotifications`. -/
def groupWindowMs : Nat := 3600000

/-- The grouping key fields of the `findOne` query:
`recipient, type, resourceType, resourceId`. -/
def matchesKeyB (userId : Nat) (cand : Candidate) (n : Notification) : Bool :=
  n.recipient == userId && n.type == cand.type &&
    n.resourceType == cand.resourceType && n.resourceId == cand.resourceId

/-- The full `findOne` predicate: the grouping key and the window condition
`createdAt: { $gte: new Date(Date.now() - 3600000) }`. -/
def matchesSimilar (now userId : Nat) (cand : Candidate) (n : Notification) : Bool :=
  matchesKeyB userId cand n && decide (now - groupWindowMs ≤ n.createdAt)

/-- The `Notification.findOne({...})` step of `groupSimilarNotifications`. -/
def findSimilar (now userId : Nat) (cand : Candidate)
    (rows : List Notification) : Option Notification :=
  rows.find? (matchesSimilar now userId cand)

/-- `similar.data?.count || 1`: JavaScript `||` treats both an absent count
and a zero count as falsy, yielding the default 1. -/
def countOr1 (o : Option Nat) : Nat :=
  match o with
  | some c => if c = 0 then 1 else c
  | none => 1

/-- Embedding of `generateGroupedMessage(type, count)`. -/
def generateGroupedMessage (type : NotifType) (count : Nat) : String :=
  match type with
  | NotifType.like => s!"You received {count} new likes on your content"
  | NotifType.comment => s!"You received {count} new comments on your video"
  | _ => s!"You have {count} new notifications"

/-- The `findByIdAndUpdate(similar._id, { $set: {...} })` step: the update
document is computed from the `similar` document captured by the find, and
applied to whichever row currently carries that `_id`. -/
def applyGroupUpdate (now : Nat) (cand : Candidate) (sim : Notification)
    (rows : List Notification) : List Notification :=
  rows.map (fun n =>
    if n.id = sim.id then
      { n with
        dataCount := some (countOr1 sim.dataCount + 1),
        updatedAt := now,
        isRead := false,
        message := generateGroupedMessage cand.type (countOr1 sim.dataCount + 1) }
    else n)

/-- The `Notification.create({...newNotification, data: {...data, count: 1}})`
step: schema defaults fill `isRead` and `deliveryStatus`, Mongoose
timestamps fill `createdAt`/`updatedAt`, and the store assigns a fresh id. -/
def createFromCandidate (now id : Nat) (cand : Candidate) : Notification :=
  { id := id
    recipient := cand.recipient
    sender := cand.sender
    type := cand.type
    resourceType := cand.resourceType
    resourceId := cand.resourceId
    message := cand.message
    isRead := false
    deliveryStatus := freshDeliveryStatus
    dataCount := some 1
    createdAt := now
    updatedAt := now }

/-- The find phase of `groupSimilarNotifications` (its `findOne`). -/
def groupFindPhase (now userId : Nat) (cand : Candidate) (s : Store) :
    Option Notification :=
  findSimilar now userId cand s.rows

/-- The commit phase of `groupSimilarNotifications`: `findByIdAndUpdate`
when the find produced a document, `create` otherwise.  In the code the
two phases are separate awaited store operations, so a concurrent handler
can run between them. -/
def groupCommitPhase (now : Nat) (cand : Candidate) (found : Option Notification)
    (s : Store) : Store :=
  match found with
  | some sim => { s with rows := applyGroupUpdate now cand sim s.rows }
  | none =>
      { nextId := s.nextId + 1
        rows := s.rows ++ [createFromCandidate now s.nextId cand] }

/-- Embedding of `groupSimilarNotifications(userId, newNotification)` run to
completion without interleaving: find, then update-in-place or create. -/
def groupSimilarNotifications (now userId : Nat) (cand : Candidate) (s : Store) :
    Store :=
  match findSimilar now userId cand s.rows with
  | some sim => { s with rows := applyGroupUpdate now cand sim s.rows }
  | none =>
      { nextId := s.nextId + 1
        rows := s.rows ++ [createFromCandidate now s.nextId cand] }

/-- Sequential delivery of a list of same-key events (their arrival times)
to the grouping engine. -/
def deliverSeq (userId : Nat) (cand : Candidate) : List Nat → Store → Store
  | [], s => s
  | t :: ts, s => deliverSeq userId cand ts (groupSimilarNotifications t userId cand s)

/-- The sequential engine is exactly its find phase followed by its commit
phase — the decomposition used to study interleavings is faithful. -/
theorem groupSimilar_eq_phases (now userId : Nat) (cand : Candidate) (s : Store) :
    groupSimilarNotifications now userId cand s
      = groupCommitPhase now cand (groupFindPhase now userId cand s) s := rfl

theorem find_append_of_all_false {α : Type} (p : α → Bool) (l1 l2 : List α)
    (h : ∀ a ∈ l1, p a = false) : (l1 ++ l2).find? p = l2.find? p := by
  induction l1 with
  | nil => simp
  | cons a l ih =>
    have ha : p a = false := h a (List.mem_cons_self a l)
    simp only [List.cons_append, List.find?, ha]
    exact ih (fun x hx => h x (List.mem_cons_of_mem a hx))

theorem map_id_of_fixed {α : Type} (f : α → α) (l : List α)
    (h : ∀ a ∈ l, f a = a) : l.map f = l := by
  induction l with
  | nil => rfl
  | cons a l ih =>
    simp only [List.map_cons]
    rw [h a (List.mem_cons_self a l),
      ih (fun x hx => h x (List.mem_cons_of_mem a hx))]

theorem filter_eq_nil_of_all_false {α : Type} (p : α → Bool) (l : List α)
    (h : ∀ a ∈ l, p a = false) : l.filter p = [] := by
  induction l with
  | nil => rfl
  | cons a l ih =>
    have ha : p a = false := h a (List.mem_cons_self a l)
    simp only [List.filter, ha]
    exact ih (fun x hx => h x (List.mem_cons_of_mem a hx))

/-- Invariant of sequential grouping: once the store is `pre ++ [row]` where
`pre` holds no row for the grouping key and `row` is the key's row created
at `t1`, every further in-window event updates `row` in place, bumping its
count by one and re-rendering its message. -/
theorem deliverSeq_loop (userId : Nat) (cand : Candidate) (t1 : Nat)
    (pre : List Notification) (nid : Nat)
    (hpre : ∀ n ∈ pre, matchesKeyB userId cand n = false) :
    ∀ (rest : List Nat) (row : Notification) (c : Nat),
      (∀ n ∈ pre, n.id ≠ row.id) →
      matchesKeyB userId cand row = true →
      row.createdAt = t1 →
      row.dataCount = some c →
      0 < c →
      (∀ t ∈ rest, t - groupWindowMs ≤ t1) →
      ∃ row',
        deliverSeq userId cand rest ⟨nid, pre ++ [row]⟩ = ⟨nid, pre ++ [row']⟩ ∧
          matchesKeyB userId cand row' = true ∧
          row'.id = row.id ∧
          row'.dataCount = some (c + rest.length) ∧
          (rest = [] → row' = row) ∧
          (rest ≠ [] → row'.isRead = false ∧
            row'.message = generateGroupedMessage cand.type (c + rest.length)) := by
  intro rest
  induction rest with
  | nil =>
    intro row c hid hkey hca hdc hc hw
    exact ⟨row, rfl, hkey, rfl, by simp [hdc], fun _ => rfl, fun h => absurd rfl h⟩
  | cons t rest ih =>
    intro row c hid hkey hca hdc hc hw
    have hco : countOr1 row.dataCount = c := by
      rw [hdc]
      simp only [countOr1]
      rw [if_neg (by omega)]
    have hwt : t - groupWindowMs ≤ t1 := hw t (List.mem_cons_self t rest)
    have hms : matchesSimilar t userId cand row = true := by
      unfold matchesSimilar
      rw [hkey, hca]
      simp [hwt]
    have hfind : findSimilar t userId cand (pre ++ [row]) = some row := by
      unfold findSimilar
      rw [find_append_of_all_false _ pre [row] (fun n hn => by
        simp [matchesSimilar, hpre n hn])]
      simp only [List.find?, hms]
    have hupd : applyGroupUpdate t cand row (pre ++ [row]) =
        pre ++ [{ row with
          dataCount := some (countOr1 row.dataCount + 1),
          updatedAt := t,
          isRead := false,
          message := generateGroupedMessage cand.type (countOr1 row.dataCount + 1) }] := by
      unfold applyGroupUpdate
      rw [List.map_append]
      congr 1
      · exact map_id_of_fixed _ pre (fun n hn => if_neg (hid n hn))
      · simp
    have hstep : groupSimilarNotifications t userId cand ⟨nid, pre ++ [row]⟩ =
        ⟨nid, pre ++ [{ row with
          dataCount := some (countOr1 row.dataCount + 1),
          updatedAt := t,
          isRead := false,
          message := generateGroupedMessage cand.type
            (countOr1 row.dataCount + 1) }]⟩ := by
      unfold groupSimilarNotifications
      rw [hfind]
      show Store.mk nid (applyGroupUpdate t cand row (pre ++ [row])) = _
      rw [hupd]
    obtain ⟨row', heq, hkey', hid', hdc', hnil', hcons'⟩ :=
      ih ({ row with
          dataCount := some (countOr1 row.dataCount + 1),
          updatedAt := t,
          isRead := false,
          message := generateGroupedMessage cand.type (countOr1 row.dataCount + 1) })
        (c + 1)
        (fun n hn => hid n hn)
        hkey hca (by rw [hco]) (by omega)
        (fun t' ht' => hw t' (List.mem_cons_of_mem t ht'))
    refine ⟨row', ?_, hkey', hid', ?_, ?_, ?_⟩
    · show deliverSeq userId cand (t :: rest) ⟨nid, pre ++ [row]⟩ = _
      simp only [deliverSeq]
      rw [hstep]
      exact heq
    · rw [hdc', List.length_cons]
      simp only [Option.some.injEq]
      omega
    · intro h
      exact absurd h (List.cons_ne_nil t rest)
    · intro _
      by_cases hr : rest = []
      · subst hr
        have hrr := hnil' rfl
        rw [hrr]
        refine ⟨rfl, ?_⟩
        show generateGroupedMessage cand.type (countOr1 row.dataCount + 1)
            = generateGroupedMessage cand.type (c + [t].length)
        rw [hco]
        simp
      · have hic := hcons' hr
        refine ⟨hic.1, ?_⟩
        rw [hic.2, List.length_cons]
        congr 1
        omega

/-- C1: N same-key events delivered sequentially, all inside the grouping
window of the first event's row (`createdAt ≥ now - 1h` at each arrival),
leave exactly one row for the key, with `data.count = N`, `isRead = false`,
and (as soon as a grouped update happened, i.e. N ≥ 2) a message re-rendered
by the type-specific template at the new count. -/
theorem grouping_sequential_collapses
    (userId t1 : Nat) (cand : Candidate) (rest : List Nat) (s0 : Store)
    (hu : cand.recipient = userId)
    (h0 : ∀ n ∈ s0.rows, matchesKeyB userId cand n = false)
    (hid : ∀ n ∈ s0.rows, n.id < s0.nextId)
    (hw : ∀ t ∈ rest, t - groupWindowMs ≤ t1) :
    ((deliverSeq userId cand (t1 :: rest) s0).rows.filter
        (matchesKeyB userId cand)).length = 1 ∧
      ∀ n ∈ (deliverSeq userId cand (t1 :: rest) s0).rows,
        matchesKeyB userId cand n = true →
          n.dataCount = some (rest.length + 1) ∧ n.isRead = false ∧
            (rest ≠ [] →
              n.message = generateGroupedMessage cand.type (rest.length + 1)) := by
  have hnone : findSimilar t1 userId cand s0.rows = none := by
    unfold findSimilar
    apply List.find?_eq_none.mpr
    intro n hn
    simp [matchesSimilar, h0 n hn]
  have hstep1 : groupSimilarNotifications t1 userId cand s0 =
      ⟨s0.nextId + 1, s0.rows ++ [createFromCandidate t1 s0.nextId cand]⟩ := by
    unfold groupSimilarNotifications
    rw [hnone]
  have hkey0 : matchesKeyB userId cand (createFromCandidate t1 s0.nextId cand)
      = true := by
    simp [matchesKeyB, createFromCandidate, hu]
  obtain ⟨row', heq, hkey', hid', hdc', hnil', hcons'⟩ :=
    deliverSeq_loop userId cand t1 s0.rows (s0.nextId + 1) h0 rest
      (createFromCandidate t1 s0.nextId cand) 1
      (fun n hn => Nat.ne_of_lt (hid n hn))
      hkey0 rfl rfl (by omega) hw
  have hfinal : deliverSeq userId cand (t1 :: rest) s0 =
      ⟨s0.nextId + 1, s0.rows ++ [row']⟩ := by
    simp only [deliverSeq]
    rw [hstep1]
    exact heq
  constructor
  · rw [hfinal]
    show ((s0.rows ++ [row']).filter (matchesKeyB userId cand)).length = 1
    rw [List.filter_append, filter_eq_nil_of_all_false _ s0.rows h0]
    simp [List.filter, hkey']
  · intro n hn hkeyn
    rw [hfinal] at hn
    rcases List.mem_append.mp hn with hpre | hsingle
    · rw [h0 n hpre] at hkeyn
      exact absurd hkeyn (by simp)
    · have hnr : n = row' := by simpa using hsingle
      subst hnr
      refine ⟨?_, ?_, ?_⟩
      · rw [hdc']
        simp only [Option.some.injEq]
        omega
      · by_cases hr : rest = []
        · rw [hnil' hr]
          rfl
        · exact (hcons' hr).1
      · intro hr
        rw [(hcons' hr).2]
        congr 1
        omega

/-- A concrete grouping candidate used by concrete runs of the engine. -/
def cand0 : Candidate :=
  { recipient := 5, sender := some 3, type := NotifType.like,
    resourceType := ResType.video, resourceId := 7,
    message := "someone liked your video", dataCount := none }

/-- An initially empty notification store. -/
def store0 : Store := { nextId := 0, rows := [] }

/-- C1 witness: three LIKE events on one video at 1000ms, 2000ms, 3000ms
leave one row with `data.count = 3`, unread, with the grouped LIKE message. -/
theorem grouping_sequential_collapses_witness :
    ((deliverSeq 5 cand0 [1000, 2000, 3000] store0).rows.filter
        (matchesKeyB 5 cand0)).length = 1 ∧
      ∀ n ∈ (deliverSeq 5 cand0 [1000, 2000, 3000] store0).rows,
        matchesKeyB 5 cand0 n = true →
          n.dataCount = some ([2000, 3000].length + 1) ∧ n.isRead = false ∧
            ([2000, 3000] ≠ ([] : List Nat) →
              n.message = generateGroupedMessage cand0.type
                ([2000, 3000].length + 1)) :=
  grouping_sequential_collapses 5 1000 cand0 [2000, 3000] store0 rfl
    (by intro n hn; simp [store0] at hn)
    (by intro n hn; simp [store0] at hn)
    (by decide)

/-- C2: the grouping engine is a non-atomic find-then-update.  Under the
interleaving find₁, find₂, commit₁, commit₂ of two concurrent events with
the same grouping key inside the window, both finds miss and both commits
insert, so the store afterwards holds two rows for the key — the
at-most-one-row invariant the claim asserts fails. -/
theorem grouping_race_duplicate_rows :
    ((groupCommitPhase 1000 cand0 (groupFindPhase 1000 5 cand0 store0)
          (groupCommitPhase 1000 cand0 (groupFindPhase 1000 5 cand0 store0)
            store0)).rows.filter (matchesKeyB 5 cand0)).length = 2 := by
  decide

/-- `findOneAndUpdate` over a list collection: update the first document
matching the filter, returning the updated document (`{new: true}`), or
`none` with the collection untouched when nothing matches. -/
def updateFirst {α : Type} (p : α → Bool) (f : α → α) :
    List α → Option α × List α
  | [] => (none, [])
  | a :: rest =>
    if p a then (some (f a), f a :: rest)
    else
      let r := updateFirst p f rest
      (r.1, a :: r.2)

/-- Embedding of `markAsRead(notificationId, userId)`:
`Notification.findOneAndUpdate({_id: notificationId, recipient: userId},
{isRead: true}, {new: true})`. -/
def markAsRead (notificationId userId : Nat) (rows : List Notification) :
    Option Notification × List Notification :=
  updateFirst (fun n => n.id == notificationId && n.recipient == userId)
    (fun n => { n with isRead := true }) rows

/-- What a handler invocation does, as observed by Node's `emit` loop:
return normally, return a promise that later rejects (an `async` handler
whose body fails), or throw synchronously during the call. -/
inductive HandlerOutcome
  | ok
  | rejectLater
  | syncThrow
deriving DecidableEq, Repr

/-- An event handler: the event payload (modelled as a number) determines
how the invocation behaves. -/
def Handler : Type := Nat → HandlerOutcome

/-- Node `EventEmitter#emit` as called by `emitEvent`: invoke the listeners
registered for the event type in order; a synchronous throw propagates out
of `emit` at once, skipping the remaining listeners (`emitEvent` wraps the
call in no try/catch).  Result: the outcomes of the listeners that were
actually invoked, and whether `emit` threw to its caller. -/
def emitRun : List Handler → Nat → List HandlerOutcome × Bool
  | [], _ => ([], false)
  | f :: fs, d =>
    match f d with
    | HandlerOutcome.syncThrow => ([HandlerOutcome.syncThrow], true)
    | r =>
      let rest := emitRun fs d
      (r :: rest.1, rest.2)

/-- The `NEW_COMMENT` event payload:
`{videoId, commentId, authorId, videoOwnerId, commentText}`. -/
structure CommentEventData where
  videoId : Nat
  commentId : Nat
  authorId : Nat
  videoOwnerId : Nat
  commentText : String
deriving DecidableEq, Repr

/-- The message template of the `NEW_COMMENT` handler:
`New comment on your video: "${commentText.substring(0, 50)}..."`. -/
def commentMessage (commentText : String) : String :=
  "New comment on your video: \"" ++ commentText.take 50 ++ "...\""

/-- The `NEW_COMMENT` handler of `registerEventHandlers`: guard
`if (authorId !== videoOwnerId)` around
`NotificationService.createNotification({...})`.  The service call (not
shown in the source) is abstracted as an arbitrary store transformer, so
the theorem holds whatever creation does. -/
def handleNewComment (createNotif : Candidate → Store → Store)
    (d : CommentEventData) (s : Store) : Store :=
  if d.authorId ≠ d.videoOwnerId then
    createNotif
      { recipient := d.videoOwnerId, sender := some d.authorId,
        type := NotifType.comment, resourceType := ResType.video,
        resourceId := d.videoId,
        message := commentMessage d.commentText, dataCount := none } s
  else s

/-- A WebSocket connection handle: its identity and whether
`readyState === WebSocket.OPEN`. -/
structure WsConn where
  connId : Nat
  isOpen : Bool
deriving DecidableEq, Repr

/-- JavaScript `Map#set` on the `clients` map keyed by `userId`: replaces
the value of an existing key — a second connection of the same user
overwrites the first registration. -/
def mapSet (k : Nat) (v : WsConn) : List (Nat × WsConn) → List (Nat × WsConn)
  | [] => [(k, v)]
  | (k', v') :: rest =>
    if k' = k then (k, v) :: rest else (k', v') :: mapSet k v rest

/-- JavaScript `Map#get` on the `clients` map. -/
def mapGet (k : Nat) : List (Nat × WsConn) → Option WsConn
  | [] => none
  | (k', v') :: rest => if k' = k then some v' else mapGet k rest

/-- The `wss.on("connection")` registration step: `clients.set(userId, ws)`. -/
def connectClient (userId : Nat) (ws : WsConn)
    (clients : List (Nat × WsConn)) : List (Nat × WsConn) :=
  mapSet userId ws clients

/-- Embedding of the WebSocket `sendNotificationToUser(userId, notification)`:
look the user up in `clients`; if a connection is present and open, send
one `{type: 'notification', data}` frame to it and return true, otherwise
return false.  Result: the returned boolean and the frames sent, as
(connection id, payload) pairs. -/
def sendNotificationToUser (clients : List (Nat × WsConn)) (userId : Nat)
    (notif : Notification) : Bool × List (Nat × Notification) :=
  match mapGet userId clients with
  | some c => if c.isOpen then (true, [(c.connId, notif)]) else (false, [])
  | none => (false, [])

/-- Modelled from the spec: the Delivery Router of §4.4 is not in the
source; per the spec it asks the Preference Resolver (the source's
`shouldDeliverToChannel`) per channel, invokes the channel adapter if
permitted, and records `deliveryStatus[channel] = {delivered, timestamp}`
on success.  For `inApp` the adapter outcome is the Real-Time Fanout
result (`sendNotificationToUser`); email/push adapter outcomes are
abstract.  A channel that is not permitted or whose adapter fails keeps
its previous flag. -/
def deliverRouter (prefs : Preferences) (clients : List (Nat × WsConn))
    (adapterOk : Channel → Bool) (now : Nat) (n : Notification) : Notification :=
  let mark (c : Channel) (chanOk : Bool) (fl : DeliveryFlag) : DeliveryFlag :=
    if shouldDeliverToChannel prefs n.type c && chanOk then
      { delivered := true, timestamp := some now }
    else fl
  let inAppOk := (sendNotificationToUser clients n.recipient n).1
  { n with deliveryStatus :=
      { inApp := mark Channel.inApp inAppOk n.deliveryStatus.inApp
        email := mark Channel.email (adapterOk Channel.email) n.deliveryStatus.email
        push := mark Channel.push (adapterOk Channel.push) n.deliveryStatus.push } }

/-- A handler list whose first member throws synchronously. -/
def badHandlers : List Handler :=
  [fun _ => HandlerOutcome.syncThrow, fun _ => HandlerOutcome.ok]

/-- A handler list of async handlers: one later rejects, one succeeds. -/
def goodHandlers : List Handler :=
  [fun _ => HandlerOutcome.rejectLater, fun _ => HandlerOutcome.ok]

/-- C5 counterexample: with two registered handlers of which the first
throws, `emit` propagates the throw to the producer (`emitEvent` has no
try/catch) and the second handler is never invoked — only one invocation
happened, refuting "neither prevents the remaining handlers ... nor
propagates an error to the event producer". -/
theorem emit_syncThrow_counterexample :
    (emitRun badHandlers 0).2 = true ∧ (emitRun badHandlers 0).1.length = 1 := by
  decide

/-- C5 (amended): a handler failure surfacing as a promise rejection — the
only failure mode of the repository's registered handlers, which are all
`async` functions — neither prevents the remaining handlers from being
invoked nor propagates to the producer: `emit` invokes every handler in
registration order and returns normally.  A synchronously thrown error,
however, is not caught at the Event Bus boundary and does propagate. -/
theorem emit_no_syncthrow_runs_all (hs : List Handler) (d : Nat)
    (h : ∀ f ∈ hs, f d ≠ HandlerOutcome.syncThrow) :
    (emitRun hs d).1 = hs.map (fun f => f d) ∧ (emitRun hs d).2 = false := by
  induction hs with
  | nil => exact ⟨rfl, rfl⟩
  | cons f fs ih =>
    have hf : f d ≠ HandlerOutcome.syncThrow := h f (List.mem_cons_self f fs)
    have hrest := ih (fun g hg => h g (List.mem_cons_of_mem f hg))
    cases hfd : f d with
    | syncThrow => exact absurd hfd hf
    | ok =>
      simp only [emitRun, hfd, List.map_cons]
      exact ⟨by rw [hrest.1], hrest.2⟩
    | rejectLater =>
      simp only [emitRun, hfd, List.map_cons]
      exact ⟨by rw [hrest.1], hrest.2⟩

/-- C5 witness: a rejection in the first of two async handlers leaves both
invoked and the producer unharmed. -/
theorem emit_no_syncthrow_runs_all_witness :
    (∀ f ∈ goodHandlers, f 0 ≠ HandlerOutcome.syncThrow) ∧
      (emitRun goodHandlers 0).1 = goodHandlers.map (fun f => f 0) ∧
        (emitRun goodHandlers 0).2 = false :=
  ⟨by decide, emit_no_syncthrow_runs_all goodHandlers 0 (by decide)⟩

/-- A concrete notification document for concrete fanout/router runs. -/
def notif0 : Notification :=
  { id := 0, recipient := 7, sender := some 3, type := NotifType.comment,
    resourceType := ResType.video, resourceId := 7,
    message := "someone commented", isRead := false,
    deliveryStatus := freshDeliveryStatus, dataCount := some 1,
    createdAt := 0, updatedAt := 0 }

/-- C6: the `clients` map keyed by `userId` retains only the most recent
connection.  After user 7 connects twice (handles 51 then 52) and user 8
connects (61), the registry holds only handle 52 for user 7, and publishing
one notification to user 7 sends exactly one frame, to handle 52 — handle
51 receives zero copies, refuting one-copy-per-registered-connection. -/
theorem fanout_overwrites_second_connection :
    mapGet 7 (connectClient 8 ⟨61, true⟩
        (connectClient 7 ⟨52, true⟩ (connectClient 7 ⟨51, true⟩ [])))
      = some ⟨52, true⟩ ∧
      sendNotificationToUser
          (connectClient 8 ⟨61, true⟩
            (connectClient 7 ⟨52, true⟩ (connectClient 7 ⟨51, true⟩ [])))
          7 notif0
        = (true, [(52, notif0)]) := by
  decide

theorem shouldDeliver_globalOff (p : Preferences) (t : NotifType) (c : Channel)
    (h : p.channels c = false) : shouldDeliverToChannel p t c = false := by
  unfold shouldDeliverToChannel
  cases hp : p.types t with
  | none => simp
  | some tp => cases he : tp.enabled <;> simp [he, h]

/-- C7: with the master email toggle off, the resolver denies email for
every notification type — even one whose per-type email override is true —
so the router never marks `deliveryStatus.email.delivered = true`. -/
theorem email_global_disabled_never_delivered
    (prefs : Preferences) (clients : List (Nat × WsConn))
    (adapterOk : Channel → Bool) (now : Nat) (n : Notification)
    (hg : prefs.channels Channel.email = false)
    (hf : n.deliveryStatus.email.delivered = false) :
    (deliverRouter prefs clients adapterOk now n).deliveryStatus.email.delivered
      = false := by
  have hs : shouldDeliverToChannel prefs n.type Channel.email = false :=
    shouldDeliver_globalOff prefs n.type Channel.email hg
  simp [deliverRouter, hs, hf]

/-- Preferences with email globally disabled but every type enabled and
every per-type channel override (email included) set to true. -/
def prefsEmailOff : Preferences :=
  { channels := fun c => match c with
      | Channel.email => false
      | _ => true,
    types := fun _ => some { enabled := true, channels := fun _ => some true } }

/-- C7 witness: email globally off, per-type email override true, adapter
healthy — the routed notification still has `email.delivered = false`. -/
theorem email_global_disabled_never_delivered_witness :
    (prefsEmailOff.channels Channel.email = false ∧
        notif0.deliveryStatus.email.delivered = false) ∧
      (deliverRouter prefsEmailOff [] (fun _ => true) 50
          notif0).deliveryStatus.email.delivered = false :=
  ⟨⟨rfl, rfl⟩,
    email_global_disabled_never_delivered prefsEmailOff [] (fun _ => true) 50
      notif0 rfl rfl⟩

/-- C8: a `NEW_COMMENT` event whose `authorId` equals `videoOwnerId` is
suppressed by the handler's guard: `createNotification` is not invoked —
whatever creation would do — and the store is unchanged. -/
theorem self_comment_no_notification
    (createNotif : Candidate → Store → Store) (d : CommentEventData) (s : Store)
    (h : d.authorId = d.videoOwnerId) :
    handleNewComment createNotif d s = s := by
  simp [handleNewComment, h]

/-- A self-comment event: author 4 comments on their own video. -/
def commentData0 : CommentEventData :=
  { videoId := 10, commentId := 20, authorId := 4, videoOwnerId := 4,
    commentText := "nice video" }

/-- C8 witness: processing the self-comment with the grouping engine as the
creation function leaves the empty store empty. -/
theorem self_comment_no_notification_witness :
    commentData0.authorId = commentData0.videoOwnerId ∧
      handleNewComment (fun c s => groupSimilarNotifications 0 c.recipient c s)
        commentData0 store0 = store0 :=
  ⟨rfl, self_comment_no_notification _ commentData0 store0 rfl⟩

/-- C9: publishing to a user with no registered connection returns `false`
(the code's normal "offline" outcome, not a throw), sends zero frames, and
the routed notification's `deliveryStatus.inApp.delivered` stays false. -/
theorem offline_user_send_returns_false
    (clients : List (Nat × WsConn)) (prefs : Preferences)
    (adapterOk : Channel → Bool) (now : Nat) (n : Notification)
    (h : mapGet n.recipient clients = none)
    (hf : n.deliveryStatus.inApp.delivered = false) :
    sendNotificationToUser clients n.recipient n = (false, []) ∧
      (deliverRouter prefs clients adapterOk now
          n).deliveryStatus.inApp.delivered = false := by
  have hsend : sendNotificationToUser clients n.recipient n = (false, []) := by
    unfold sendNotificationToUser
    rw [h]
  exact ⟨hsend, by simp [deliverRouter, hsend, hf]⟩

/-- Preferences with everything on (types enabled, all overrides true). -/
def prefsAllOn : Preferences :=
  { channels := fun _ => true,
    types := fun _ => some { enabled := true, channels := fun _ => some true } }

/-- C9 witness: only user 8 is connected; publishing to user 7 returns
`(false, [])` and the inApp flag stays false. -/
theorem offline_user_send_returns_false_witness :
    (mapGet notif0.recipient [(8, WsConn.mk 61 true)] = none ∧
        notif0.deliveryStatus.inApp.delivered = false) ∧
      sendNotificationToUser [(8, WsConn.mk 61 true)] notif0.recipient notif0
          = (false, []) ∧
        (deliverRouter prefsAllOn [(8, WsConn.mk 61 true)] (fun _ => true) 50
            notif0).deliveryStatus.inApp.delivered = false :=
  ⟨⟨rfl, rfl⟩,
    offline_user_send_returns_false [(8, WsConn.mk 61 true)] prefsAllOn
      (fun _ => true) 50 notif0 rfl rfl⟩

/-- C10: `markAsRead` filters on `_id` AND `recipient`; when no stored
notification satisfies both (in particular when the notification exists
but belongs to someone else), it returns `null` and the collection — every
document's `isRead` included — is unchanged. -/
theorem markAsRead_wrong_recipient_noop :
    ∀ (nid uid : Nat) (rows : List Notification),
      (∀ n ∈ rows, n.id = nid → n.recipient ≠ uid) →
      markAsRead nid uid rows = (none, rows) := by
  intro nid uid rows
  induction rows with
  | nil => intro _; rfl
  | cons a rest ih =>
    intro h
    have hpa : (a.id == nid && a.recipient == uid) = false := by
      by_cases hid : a.id = nid
      · have := h a (List.mem_cons_self a rest) hid
        simp [hid, this]
      · simp [hid]
    have hres := ih (fun n hn => h n (List.mem_cons_of_mem a hn))
    simp only [markAsRead] at hres ⊢
    simp only [updateFirst, hpa]
    simp [hres]

/-- C10 witness: the store holds one notification (id 1, recipient 2);
marking it read on behalf of user 3 returns `null` and changes nothing. -/
theorem markAsRead_wrong_recipient_noop_witness :
    (∀ n ∈ [{ notif0 with id := 1, recipient := 2 }], n.id = 1 → n.recipient ≠ 3) ∧
      markAsRead 1 3 [{ notif0 with id := 1, recipient := 2 }]
        = (none, [{ notif0 with id := 1, recipient := 2 }]) :=
  ⟨by decide, markAsRead_wrong_recipient_noop 1 3 _ (by decide)⟩

end InTube
